import Mathlib

/-!
Shallow embedding of the core of the `movierec` (TrailerSwipe) repository:
the feed navigation / single-active-playback engine, the TMDB trailer
selection logic, the swipe gesture classifier, and the LocalStorage-backed
favorites store.  Definitions are translated from the TypeScript sources:

* `src/lib/tmdb/client.ts`   — `getMovieVideos`, favorites storage
  (`getFavorites`, `addFavorite`, `removeFavorite`, `isFavorite`,
  `toggleFavorite`, `getFavoritesCount`)
* `src/hooks/useSwipe.ts`    — `handleDragEnd`
* `src/app/page.tsx`         — `Home`: `loadMovies`, `goToNextMovie`,
  `handleSwipeLeft`, `handleSwipeRight`, `handleVideoEnd`, render tree
* `src/components/MovieCard.tsx`, `src/components/TrailerPlayer.tsx`
  — which callbacks the player can invoke and when a trailer is rendered
  as an autoplaying (playing) embed.

Asynchronous effects (network fetches, LocalStorage writes) are modelled by
passing their results / success flags explicitly; the UI event loop is
modelled as a step function on the page state.
-/

namespace MovieRec

/-! ## Data model (src/types/tmdb.d.ts, as used by the code) -/

/-- One element of TMDB's `/movie/{id}/videos` response, as used by
`getMovieVideos`: a video reference with a YouTube key, a hosting site,
a kind (`type` in TS: "Trailer", "Teaser", "Featurette", ...) and an
`official` flag. -/
structure MovieVideo where
  key : String
  site : String
  type : String
  official : Bool
deriving DecidableEq, Repr

/-- Movie metadata, restricted to the fields the embedded logic reads. -/
structure Movie where
  id : Int
  title : String
  poster_path : Option String
deriving DecidableEq, Repr

/-- In `src/app/page.tsx`: `type ExtendedMovie = Movie & { trailer : MovieVideo | null }`. -/
structure ExtendedMovie extends Movie where
  trailer : Option MovieVideo
deriving DecidableEq, Repr

/-! ## Favorites storage (src/lib/tmdb/client.ts, favorites section)

LocalStorage is modelled explicitly: `getItem` yields an `Option String`
(`none` = key absent), `JSON.parse` is an abstract total parser
`String → Option Json` (`none` models a parse exception), and a `setItem`
that may throw is modelled by a `writeOk : Bool` flag (`false` = the write
raised, so the persisted list is unchanged and the `catch` branch runs).
The operations `addFavorite`/`removeFavorite`/`isFavorite`/`toggleFavorite`
read the current list via `getFavorites()`; they are given that list
(`favs`) explicitly and return the new persisted list together with their
boolean result. -/

/-- A parsed JSON value, as far as `getFavorites` inspects it:
`Array.isArray` distinguishes arrays from everything else, and array
elements are passed through unchecked (they are modelled as the stored
movie ids). -/
inductive Json
  | nullVal : Json
  | boolVal (b : Bool) : Json
  | numVal (n : Int) : Json
  | strVal (s : String) : Json
  | arrVal (xs : List Int) : Json
  | objVal : Json
deriving DecidableEq, Repr

/-- The `Array.isArray` check of `getFavorites`. -/
def Json.isArr : Json → Bool
  | .arrVal _ => true
  | _ => false

/-- Soft cap on the favorites set (`MAX_FAVORITES = 500`). -/
def MAX_FAVORITES : Nat := 500

/-- Embedding of `getFavorites()`:
`if (typeof window === 'undefined') return [];` then
`const stored = localStorage.getItem(KEY); if (!stored) return [];`
(note `!stored` is also true for the empty string), then
`const favorites = JSON.parse(stored)` inside a try/catch returning `[]`,
then `return Array.isArray(favorites) ? favorites : [];`.
The embedding is a total function: the `catch` branch appears as the
`none` case of the abstract parser. -/
def getFavorites (hasWindow : Bool) (parseJson : String → Option Json)
    (stored : Option String) : List Int :=
  if !hasWindow then []
  else
    match stored with
    | none => []
    | some s =>
      if s = "" then []
      else
        match parseJson s with
        | none => []
        | some (Json.arrVal xs) => xs
        | some _ => []

/-- Embedding of `addFavorite(movieId)`: given the list read by
`getFavorites()`, return `(persisted list, returned boolean)`.
If the id is already present, return `true` without writing; otherwise
evict the oldest entry (`favorites.shift()`) when at the cap, push the id,
and attempt the write: a throwing `setItem` (`writeOk = false`) leaves the
persisted list unchanged and returns `false`. -/
def addFavorite (writeOk : Bool) (favs : List Int) (movieId : Int) :
    List Int × Bool :=
  if favs.contains movieId then (favs, true)
  else
    let favs1 := if MAX_FAVORITES ≤ favs.length then favs.tail else favs
    let favs2 := favs1 ++ [movieId]
    if writeOk then (favs2, true) else (favs, false)

/-- Embedding of `removeFavorite(movieId)`: filter the id out and attempt
the write. -/
def removeFavorite (writeOk : Bool) (favs : List Int) (movieId : Int) :
    List Int × Bool :=
  let filtered := favs.filter (fun id => id ≠ movieId)
  if writeOk then (filtered, true) else (favs, false)

/-- Embedding of `isFavorite(movieId)`: `favorites.includes(movieId)`. -/
def isFavorite (favs : List Int) (movieId : Int) : Bool :=
  favs.contains movieId

/-- Embedding of `toggleFavorite(movieId)`: branches on `isFavorite`, calls
`removeFavorite` / `addFavorite` *discarding their boolean results*, and
returns `false` / `true` respectively. -/
def toggleFavorite (writeOk : Bool) (favs : List Int) (movieId : Int) :
    List Int × Bool :=
  if isFavorite favs movieId then
    ((removeFavorite writeOk favs movieId).1, false)
  else
    ((addFavorite writeOk favs movieId).1, true)

/-- Embedding of `getFavoritesCount()`. -/
def getFavoritesCount (favs : List Int) : Nat := favs.length

/-! ## Trailer selection (src/lib/tmdb/client.ts, `getMovieVideos`)

`getMovieVideos` filters the raw `/movie/{id}/videos` results to
`site === 'YouTube'` and sorts them with the comparator below.
ECMAScript's `Array.prototype.sort` is stable; a stable comparison sort is
modelled here as stable insertion sort (`jsSort`): an element moves past a
previously placed element only when the comparator says it is strictly
smaller, so ties keep their original relative order, exactly as in JS. -/

/-- The comparator passed to `.sort` in `getMovieVideos`, line by line:
official first, then kind "Trailer" before other kinds, else keep order. -/
def trailerCmp (a b : MovieVideo) : Int :=
  if a.official && !b.official then -1
  else if !a.official && b.official then 1
  else if a.type == "Trailer" && b.type != "Trailer" then -1
  else if a.type != "Trailer" && b.type == "Trailer" then 1
  else 0

/-- Stable insertion of `x` into an already sorted list: walk past `y` only
when the comparator puts `y` strictly before `x`. -/
def sortInsert (cmp : MovieVideo → MovieVideo → Int) (x : MovieVideo) :
    List MovieVideo → List MovieVideo
  | [] => [x]
  | y :: ys => if cmp y x < 0 then y :: sortInsert cmp x ys else x :: y :: ys

/-- Stable comparison sort, modelling the (stable) JS `Array.prototype.sort`. -/
def jsSort (cmp : MovieVideo → MovieVideo → Int) :
    List MovieVideo → List MovieVideo
  | [] => []
  | x :: xs => sortInsert cmp x (jsSort cmp xs)

/-- Embedding of `getMovieVideos` applied to the raw results list:
`data.results.filter(v => v.site === 'YouTube').sort(trailerCmp)`. -/
def getMovieVideos (results : List MovieVideo) : List MovieVideo :=
  jsSort trailerCmp (results.filter (fun v => v.site == "YouTube"))

/-- Priority rank induced by `trailerCmp`:
0 = official ∧ kind "Trailer", 1 = official ∧ other kind,
2 = non-official ∧ kind "Trailer", 3 = the rest.
`trailerCmp a b < 0 ↔ videoRank a < videoRank b` (proved below). -/
def videoRank (v : MovieVideo) : Nat :=
  (if v.official then 0 else 2) + (if v.type == "Trailer" then 0 else 1)

/-- Stable sorting by a four-valued rank, written out as the concatenation
of the rank classes in original order; used to characterize `jsSort
trailerCmp`. -/
def rankClasses (ys : List MovieVideo) : List MovieVideo :=
  ys.filter (fun v => videoRank v = 0) ++ ys.filter (fun v => videoRank v = 1)
    ++ ys.filter (fun v => videoRank v = 2)
    ++ ys.filter (fun v => videoRank v = 3)

/-- The selection rule as the specification states it (for comparison with
the code): prefer `kind == "Trailer"` with `official == true`; else any
`kind == "Trailer"`; else `kind == "Teaser"`; else the first available;
candidates not hosted on YouTube are rejected. -/
def specBestTrailer (videos : List MovieVideo) : Option MovieVideo :=
  let ys := videos.filter (fun v => v.site == "YouTube")
  match ys.find? (fun v => v.type == "Trailer" && v.official) with
  | some v => some v
  | none =>
    match ys.find? (fun v => v.type == "Trailer") with
    | some v => some v
    | none =>
      match ys.find? (fun v => v.type == "Teaser") with
      | some v => some v
      | none => ys.head?

/-! ## Gesture classification (src/hooks/useSwipe.ts, `handleDragEnd`) -/

/-- Result of classifying a drag release: swipe right (accept), swipe left
(reject), or no action. -/
inductive SwipeDir
  | right
  | left
  | none
deriving DecidableEq, Repr

/-- Embedding of `handleDragEnd`: a swipe triggers iff
`Math.abs(offset.x) > threshold || Math.abs(velocity.x) > velocityThreshold`,
and the direction is by the sign of `offset.x` (`> 0` → right, else left).
In the source the velocity threshold is the literal `0.5` (`0.3` in the
second variant of the hook); it is a parameter here so both instantiate. -/
def handleDragEnd (threshold velocityThreshold offsetX velocityX : ℚ) :
    SwipeDir :=
  if |offsetX| > threshold ∨ |velocityX| > velocityThreshold then
    if offsetX > 0 then .right else .left
  else .none

/-! ## The Home page feed controller (src/app/page.tsx)

React state of the `Home` component, and its handlers as state
transformers.  Network requests are asynchronous; a completed
`loadMovies()` fetch is delivered as an explicit event carrying the fetched
data.  LocalStorage writes made through `useFavorites` are modelled as
succeeding (`writeOk = true`), which matches a browser session with
available storage; `HomeState.favorites` is the persisted id list. -/

/-- The `activeCategory` state: the literal `'popular'` or a genre id. -/
inductive CategoryId
  | popular
  | genre (id : Int)
deriving DecidableEq, Repr

/-- One movie of a completed fetch inside `loadMovies`: its metadata and
the raw result of `getMovieVideos(movie.id)` — `none` when that per-movie
request threw (the inner `catch` sets `trailer: null`). -/
structure FetchedMovie where
  movie : Movie
  videos : Option (List MovieVideo)
deriving DecidableEq, Repr

/-- React state of the `Home` component, restricted to the fields the core
logic reads and writes. -/
structure HomeState where
  movies : List ExtendedMovie
  currentIndex : Nat
  isLoading : Bool
  activeCategory : CategoryId
  muted : Bool
  favorites : List Int
deriving DecidableEq, Repr

/-- The per-movie body of `loadMovies`: `trailer: videos[0] || null`, where
`videos` is the filtered and sorted `getMovieVideos` result, and a failed
request gives `trailer: null`. -/
def extendMovie (f : FetchedMovie) : ExtendedMovie :=
  { f.movie with
    trailer :=
      match f.videos with
      | none => none
      | some raw => (getMovieVideos raw).head? }

/-- The items produced by a completed `loadMovies()` call:
`getPopularMovies`/`getMoviesByGenre` filter out movies without posters,
the page takes `slice(0, 20)` and annotates each movie with its selected
trailer.  No movie is dropped for lacking a trailer. -/
def loadMoviesResult (fetched : List FetchedMovie) : List ExtendedMovie :=
  (((fetched.filter (fun f => f.movie.poster_path ≠ none)).take 20).map
    extendMovie)

/-- Completion of `loadMovies()`:
`setMovies(moviesWithTrailers); setCurrentIndex(0); setIsLoading(false)` —
the previous `movies` list is replaced wholesale and the index resets. -/
def loadMoviesComplete (s : HomeState) (fetched : List FetchedMovie) :
    HomeState :=
  { s with
    movies := loadMoviesResult fetched
    currentIndex := 0
    isLoading := false }

/-- Embedding of `goToNextMovie`: advance while not at the last item; at
the last item start `loadMovies()` again (its synchronous prefix sets
`isLoading` to `true`; the fetch completes later as `Event.loadDone`). -/
def goToNextMovie (s : HomeState) : HomeState :=
  if s.currentIndex < s.movies.length - 1 then
    { s with currentIndex := s.currentIndex + 1 }
  else
    { s with isLoading := true }

/-- Embedding of `handleSwipeLeft` (the swipe feedback overlay is visual
only and not part of the modelled state). -/
def handleSwipeLeft (s : HomeState) : HomeState :=
  goToNextMovie s

/-- Embedding of `handleSwipeRight`: `favorites.add(movies[currentIndex].id)`
when the current movie exists, then `goToNextMovie()`. -/
def handleSwipeRight (s : HomeState) : HomeState :=
  let s1 :=
    match s.movies.get? s.currentIndex with
    | some m => { s with favorites := (addFavorite true s.favorites m.id).1 }
    | none => s
  goToNextMovie s1

/-- Embedding of `handleVideoEnd`: "Auto-advance to next video when current
one ends" — the page-level handler simply calls `goToNextMovie()`. -/
def handleVideoEnd (s : HomeState) : HomeState :=
  goToNextMovie s

/-! ### The player component's outgoing callbacks
(src/components/TrailerPlayer.tsx)

`Home` passes `onVideoEnd={handleVideoEnd}` into `MovieCard`, and
`MovieCard` forwards `onVideoEnd`/`onError` in its JSX for `TrailerPlayer`.
`TrailerPlayerProps` (TrailerPlayer.tsx lines 6-11), however, declares only
`videoKey`, `isActive`, `muted?` and `onMuteToggle?`; the component
destructures exactly those, so the forwarded `onVideoEnd` is dropped, and
the component body registers no listener for the embedded player's `ended`
event (the iframe is created with `enablejsapi=1` but no message listener
is installed).  Consequently no callback of the page is invoked when
playback ends. -/

/-- The props `TrailerPlayer` actually declares and destructures. -/
structure TrailerPlayerProps where
  videoKey : Option String
  isActive : Bool
  muted : Bool
  hasMuteToggle : Bool
deriving DecidableEq, Repr

/-- Signals originating at the embedded player / iframe. -/
inductive PlayerSignal
  | loaded
  | failed
  | ended
deriving DecidableEq, Repr

/-- Whether `TrailerPlayer` forwards a player signal to any callback of its
parent: `onLoad`/`onError` only update component-local state
(`isLoading`, `hasError`, `playerRef`), and there is no handler at all for
`ended` (no `onVideoEnd` prop exists and no `ended` listener is
registered). -/
def trailerPlayerForwards (_p : TrailerPlayerProps) (sig : PlayerSignal) :
    Bool :=
  match sig with
  | .loaded => false
  | .failed => false
  | .ended => false

/-- The props `MovieCard` constructs for `TrailerPlayer` for the active
card (MovieCard.tsx lines 54-64): the trailer's key, `isActive`, the
session `muted` flag, and a mute-toggle callback. -/
def movieCardPlayerProps (trailer : MovieVideo) (isActive muted : Bool) :
    TrailerPlayerProps :=
  { videoKey := some trailer.key
    isActive := isActive
    muted := muted
    hasMuteToggle := true }

/-- Reaction of the page to the embedded player reaching `ended`: the
signal would have to travel through `TrailerPlayer` to reach
`handleVideoEnd`, but `trailerPlayerForwards` is `false` for `ended`, so
the state is unchanged. -/
def dispatchPlayerEnded (s : HomeState) : HomeState :=
  match s.movies.get? s.currentIndex with
  | some m =>
    match m.trailer with
    | some tr =>
      if trailerPlayerForwards (movieCardPlayerProps tr true s.muted) .ended
      then handleVideoEnd s
      else s
    | none => s
  | none => s

/-! ### The UI event loop -/

/-- Discrete events processed by the `Home` component: a drag release
(classified by `useSwipe` with the page's `threshold: 80` and the hook's
velocity threshold `0.5`), the embedded player reaching `ended`, a category
tab press, completion of a `loadMovies()` fetch, the mute toggle, and the
favorite-icon toggle for the current card. -/
inductive Event
  | dragEnd (offsetX velocityX : ℚ)
  | playerEnded
  | categoryChange (c : CategoryId)
  | loadDone (fetched : List FetchedMovie)
  | muteToggle
  | favToggle
deriving DecidableEq, Repr

/-- One step of the UI event loop of `Home`. -/
def handleEvent (s : HomeState) : Event → HomeState
  | .dragEnd offsetX velocityX =>
    match handleDragEnd 80 (1 / 2) offsetX velocityX with
    | .right => handleSwipeRight s
    | .left => handleSwipeLeft s
    | .none => s
  | .playerEnded => dispatchPlayerEnded s
  | .categoryChange c => { s with activeCategory := c, isLoading := true }
  | .loadDone fetched => loadMoviesComplete s fetched
  | .muteToggle => { s with muted := !s.muted }
  | .favToggle =>
    match s.movies.get? s.currentIndex with
    | some m =>
      { s with favorites := (toggleFavorite true s.favorites m.id).1 }
    | none => s

/-- States reachable from `s0` by a sequence of UI events. -/
inductive Reachable (s0 : HomeState) : HomeState → Prop
  | refl : Reachable s0 s0
  | step : ∀ {s : HomeState} (e : Event), Reachable s0 s →
      Reachable s0 (handleEvent s e)

/-! ### Rendering and playback (src/app/page.tsx lines 184-201,
src/components/MovieCard.tsx, src/components/TrailerPlayer.tsx)

The page renders the spinner while loading, the empty-state otherwise when
`movies` is empty, and else a single `MovieCard` for
`movies[currentIndex]` with `isActive={true}`.  A card renders an
autoplaying trailer embed iff it has a trailer (`hasTrailer`, i.e.
`trailer !== null && !videoError`) and is active, and `TrailerPlayer`
renders the iframe (with `autoplay = isActive`) iff its key is present and
it has not errored.  `videoError`/`hasError` are component-local flags,
passed here as parameters. -/

/-- Whether a rendered card is showing an actively playing trailer. -/
def cardPlaying (m : ExtendedMovie) (isActive videoError hasError : Bool) :
    Bool :=
  match m.trailer with
  | none => false
  | some _ => isActive && !videoError && !hasError

/-- The list of cards the page renders, each with its playing flag. -/
def renderedCards (s : HomeState) (videoError hasError : Bool) :
    List (ExtendedMovie × Bool) :=
  if s.isLoading then []
  else if s.movies.isEmpty then []
  else
    match s.movies.get? s.currentIndex with
    | some m => [(m, cardPlaying m true videoError hasError)]
    | none => []

/-- Number of items rendered with an actively playing trailer — the number
of `PlaybackState`s with `status == playing`. -/
def playingCount (s : HomeState) (videoError hasError : Bool) : Nat :=
  ((renderedCards s videoError hasError).filter (fun c => c.2)).length

/-- The code's actual selection rule, written in the spec's
first-match style for comparison with `getMovieVideos`: first official
trailer; else first official candidate of any kind; else first
(non-official) trailer; else the first YouTube candidate. -/
def codeBestTrailer (videos : List MovieVideo) : Option MovieVideo :=
  let ys := videos.filter (fun v => v.site == "YouTube")
  match ys.find? (fun v => v.official && v.type == "Trailer") with
  | some v => some v
  | none =>
    match ys.find? (fun v => v.official) with
    | some v => some v
    | none =>
      match ys.find? (fun v => v.type == "Trailer") with
      | some v => some v
      | none => ys.head?

/-! ## Sample data for concrete evaluations -/

/-- An official YouTube trailer for movie A. -/
def vidTrailerA : MovieVideo := ⟨"keyA", "YouTube", "Trailer", true⟩

/-- An official YouTube trailer for movie B. -/
def vidTrailerB : MovieVideo := ⟨"keyB", "YouTube", "Trailer", true⟩

/-- An official YouTube trailer for movie C. -/
def vidTrailerC : MovieVideo := ⟨"keyC", "YouTube", "Trailer", true⟩

/-- An official YouTube video that is not a trailer. -/
def vidFeaturette : MovieVideo := ⟨"keyF", "YouTube", "Featurette", true⟩

/-- A non-official YouTube trailer. -/
def vidFanTrailer : MovieVideo := ⟨"keyU", "YouTube", "Trailer", false⟩

/-- Sample movie metadata. -/
def movieA : Movie := ⟨1, "A", some "/a.jpg"⟩

/-- Sample movie metadata. -/
def movieB : Movie := ⟨2, "B", some "/b.jpg"⟩

/-- Sample movie metadata. -/
def movieC : Movie := ⟨3, "C", some "/c.jpg"⟩

/-- Feed item A with its trailer. -/
def itemA : ExtendedMovie := ⟨movieA, some vidTrailerA⟩

/-- Feed item B with its trailer. -/
def itemB : ExtendedMovie := ⟨movieB, some vidTrailerB⟩

/-- Feed item C with its trailer. -/
def itemC : ExtendedMovie := ⟨movieC, some vidTrailerC⟩

/-- A three-item feed at the first item, nothing loading. -/
def feedABC : HomeState :=
  { movies := [itemA, itemB, itemC]
    currentIndex := 0
    isLoading := false
    activeCategory := .popular
    muted := true
    favorites := [] }

/-- A two-item feed at the first item. -/
def feedAB : HomeState :=
  { movies := [itemA, itemB]
    currentIndex := 0
    isLoading := false
    activeCategory := .popular
    muted := true
    favorites := [] }

/-- A two-item feed with the user holding the last position. -/
def feedAtEnd : HomeState :=
  { movies := [itemA, itemB]
    currentIndex := 1
    isLoading := false
    activeCategory := .popular
    muted := true
    favorites := [] }

/-- The state after advancing past the end of `feedAtEnd`: the index stays
at the last item and a reload is in flight. -/
def feedLoadingAtEnd : HomeState :=
  { movies := [itemA, itemB]
    currentIndex := 1
    isLoading := true
    activeCategory := .popular
    muted := true
    favorites := [] }

/-- A fetched movie A whose video request succeeded. -/
def fetchedA : FetchedMovie := ⟨movieA, some [vidTrailerA]⟩

/-- A fetched movie B whose video request succeeded but returned no
videos at all. -/
def fetchedB : FetchedMovie := ⟨movieB, some []⟩

/-- A fetched movie C whose video request succeeded. -/
def fetchedC : FetchedMovie := ⟨movieC, some [vidTrailerC]⟩

/-! ## Lemmas about the trailer sort -/

/-- The rank only takes the values 0..3. -/
lemma videoRank_le_three (v : MovieVideo) : videoRank v ≤ 3 := by
  unfold videoRank
  cases hv : v.official <;> cases tv : v.type == "Trailer" <;> simp

/-- The comparator orders strictly exactly when the ranks do. -/
lemma trailerCmp_neg_iff (a b : MovieVideo) :
    trailerCmp a b < 0 ↔ videoRank a < videoRank b := by
  cases ha : a.official <;> cases hb : b.official <;>
    cases ta : a.type == "Trailer" <;> cases tb : b.type == "Trailer" <;>
      simp [trailerCmp, videoRank, ha, hb, ta, tb, bne]

/-- Insertion passes through a prefix of strictly smaller-ranked elements. -/
lemma sortInsert_append_lt (x : MovieVideo) (L R : List MovieVideo)
    (h : ∀ y ∈ L, videoRank y < videoRank x) :
    sortInsert trailerCmp x (L ++ R) = L ++ sortInsert trailerCmp x R := by
  induction L with
  | nil => simp
  | cons y L ih =>
    have hy : trailerCmp y x < 0 := (trailerCmp_neg_iff y x).2 (h y (by simp))
    simp only [List.cons_append, sortInsert, if_pos hy, List.append_eq]
    rw [ih (fun z hz => h z (by simp [hz]))]

/-- Insertion stops in front of greater-or-equal-ranked elements
(stability: ties keep the incoming element first, and the incoming element
precedes the already-placed ones, which originate later in the input). -/
lemma sortInsert_ge (x : MovieVideo) (R : List MovieVideo)
    (h : ∀ y ∈ R, videoRank x ≤ videoRank y) :
    sortInsert trailerCmp x R = x :: R := by
  cases R with
  | nil => rfl
  | cons y ys =>
    have hy : ¬ trailerCmp y x < 0 := by
      rw [trailerCmp_neg_iff]
      exact Nat.not_lt.2 (h y (by simp))
    simp [sortInsert, hy]

/-- Elements of a rank class have that rank. -/
lemma mem_rank_filter {i : Nat} {y : MovieVideo} {ys : List MovieVideo}
    (h : y ∈ ys.filter (fun v => videoRank v = i)) : videoRank y = i := by
  simp [List.mem_filter] at h
  exact h.2

/-- Stable insertion preserves the rank-class decomposition. -/
lemma sortInsert_rankClasses (x : MovieVideo) (ys : List MovieVideo) :
    sortInsert trailerCmp x (rankClasses ys) = rankClasses (x :: ys) := by
  have hx3 := videoRank_le_three x
  have hcase : videoRank x = 0 ∨ videoRank x = 1 ∨ videoRank x = 2 ∨
      videoRank x = 3 := by omega
  rcases hcase with h | h | h | h
  · rw [sortInsert_ge x _ (by intro y _; omega)]
    simp [rankClasses, List.filter_cons, h]
  · rw [rankClasses, List.append_assoc, List.append_assoc]
    rw [sortInsert_append_lt x _ _
      (fun y hy => by rw [mem_rank_filter hy, h]; omega)]
    rw [sortInsert_ge x _ ?hge]
    · simp [rankClasses, List.filter_cons, h]
    case hge =>
      intro y hy
      rcases List.mem_append.1 hy with h1 | h1
      · rw [mem_rank_filter h1, h]
      · rcases List.mem_append.1 h1 with h2 | h2
        · rw [mem_rank_filter h2, h]; omega
        · rw [mem_rank_filter h2, h]; omega
  · rw [rankClasses, List.append_assoc, List.append_assoc,
      ← List.append_assoc]
    rw [sortInsert_append_lt x _ _ ?hlt]
    rw [sortInsert_ge x _ ?hge]
    · simp [rankClasses, List.filter_cons, h]
    case hlt =>
      intro y hy
      rcases List.mem_append.1 hy with h1 | h1
      · rw [mem_rank_filter h1, h]; omega
      · rw [mem_rank_filter h1, h]; omega
    case hge =>
      intro y hy
      rcases List.mem_append.1 hy with h1 | h1
      · rw [mem_rank_filter h1, h]
      · rw [mem_rank_filter h1, h]; omega
  · rw [rankClasses]
    rw [sortInsert_append_lt x _ _ ?hlt]
    rw [sortInsert_ge x _ ?hge]
    · simp [rankClasses, List.filter_cons, h]
    case hlt =>
      intro y hy
      rcases List.mem_append.1 hy with h1 | h1
      · rcases List.mem_append.1 h1 with h2 | h2
        · rw [mem_rank_filter h2, h]; omega
        · rw [mem_rank_filter h2, h]; omega
      · rw [mem_rank_filter h1, h]; omega
    case hge =>
      intro y hy
      rw [mem_rank_filter hy, h]

/-- The stable comparison sort by `trailerCmp` is exactly the rank-class
decomposition. -/
lemma jsSort_eq_rankClasses (ys : List MovieVideo) :
    jsSort trailerCmp ys = rankClasses ys := by
  induction ys with
  | nil => simp [jsSort, rankClasses]
  | cons y ys ih => rw [jsSort, ih, sortInsert_rankClasses]

/-- Characterization of `getMovieVideos`: YouTube filter, then rank-class
decomposition. -/
lemma getMovieVideos_eq_rankClasses (results : List MovieVideo) :
    getMovieVideos results =
      rankClasses (results.filter (fun v => v.site == "YouTube")) := by
  rw [getMovieVideos, jsSort_eq_rankClasses]

/-- Rank 0 means official with kind "Trailer". -/
lemma rank0_pred (v : MovieVideo) :
    decide (videoRank v = 0) = (v.official && v.type == "Trailer") := by
  cases hv : v.official <;> cases tv : v.type == "Trailer" <;>
    simp [videoRank, hv, tv]

/-- The head of the rank-class decomposition follows the first-match
chain: official trailer, then official, then trailer, then anything. -/
lemma head_rankClasses (ys : List MovieVideo) :
    (rankClasses ys).head? =
      match ys.find? (fun v => v.official && v.type == "Trailer") with
      | some v => some v
      | none =>
        match ys.find? (fun v => v.official) with
        | some v => some v
        | none =>
          match ys.find? (fun v => v.type == "Trailer") with
          | some v => some v
          | none => ys.head? := by
  rw [rankClasses]
  simp only [List.head?_append]
  have hc0 : ys.filter (fun v => videoRank v = 0) =
      ys.filter (fun v => v.official && v.type == "Trailer") :=
    List.filter_congr (fun v _ => rank0_pred v)
  rw [hc0]
  cases hf0 : ys.find? (fun v => v.official && v.type == "Trailer") with
  | some v =>
    rw [List.filter_head? (fun v => v.official && v.type == "Trailer") ys, hf0]
    simp [Option.or]
  | none =>
    rw [List.filter_head? (fun v => v.official && v.type == "Trailer") ys, hf0]
    simp only [Option.none_or]
    have hn0 : ∀ v ∈ ys, ¬(v.official && v.type == "Trailer") = true :=
      List.find?_eq_none.1 hf0
    have hc1 : ys.filter (fun v => videoRank v = 1) =
        ys.filter (fun v => v.official) := by
      apply List.filter_congr
      intro v hv
      have hv0 := hn0 v hv
      cases hov : v.official <;> cases tv : v.type == "Trailer" <;>
        simp [videoRank, hov, tv] <;> simp [hov, tv] at hv0
    rw [hc1]
    cases hf1 : ys.find? (fun v => v.official) with
    | some v =>
      rw [List.filter_head? (fun v => v.official) ys, hf1]
      simp [Option.or]
    | none =>
      rw [List.filter_head? (fun v => v.official) ys, hf1]
      simp only [Option.none_or]
      have hn1 : ∀ v ∈ ys, ¬v.official = true := List.find?_eq_none.1 hf1
      have hc2 : ys.filter (fun v => videoRank v = 2) =
          ys.filter (fun v => v.type == "Trailer") := by
        apply List.filter_congr
        intro v hv
        have hv1 := hn1 v hv
        cases hov : v.official <;> cases tv : v.type == "Trailer" <;>
          simp [videoRank, hov, tv] <;> simp [hov] at hv1
      rw [hc2]
      cases hf2 : ys.find? (fun v => v.type == "Trailer") with
      | some v =>
        rw [List.filter_head? (fun v => v.type == "Trailer") ys, hf2]
        simp [Option.or]
      | none =>
        rw [List.filter_head? (fun v => v.type == "Trailer") ys, hf2]
        simp only [Option.none_or]
        have hn2 : ∀ v ∈ ys, ¬(v.type == "Trailer") = true :=
          List.find?_eq_none.1 hf2
        have hc3 : ys.filter (fun v => videoRank v = 3) = ys := by
          rw [List.filter_eq_self]
          intro v hv
          have h1 := hn1 v hv
          have h2 := hn2 v hv
          cases hov : v.official <;> cases tv : v.type == "Trailer" <;>
            simp [videoRank, hov, tv] <;> simp [hov, tv] at h1 h2
        rw [hc3]

/-- The first element of the sorted candidate list is the first-match
chain of `codeBestTrailer`. -/
lemma head_getMovieVideos (results : List MovieVideo) :
    (getMovieVideos results).head? = codeBestTrailer results := by
  rw [getMovieVideos_eq_rankClasses, head_rankClasses, codeBestTrailer]

/-- Every element of a rank-class decomposition is an element of the input. -/
lemma mem_rankClasses {v : MovieVideo} {ys : List MovieVideo}
    (h : v ∈ rankClasses ys) : v ∈ ys := by
  unfold rankClasses at h
  rcases List.mem_append.1 h with h1 | h1
  · rcases List.mem_append.1 h1 with h2 | h2
    · rcases List.mem_append.1 h2 with h3 | h3
      · exact (List.mem_filter.1 h3).1
      · exact (List.mem_filter.1 h3).1
    · exact (List.mem_filter.1 h2).1
  · exact (List.mem_filter.1 h1).1

/-! ## Lemmas about rendering and favorites -/

/-- The render tree produces at most one card, so at most one playing
trailer, in any state whatsoever. -/
lemma playingCount_le_one (s : HomeState) (videoError hasError : Bool) :
    playingCount s videoError hasError ≤ 1 := by
  unfold playingCount renderedCards
  split
  · simp
  · split
    · simp
    · split
      · rename_i m _
        simp [List.filter_cons]
        split <;> simp
      · simp

/-- A successful `addFavorite` leaves the id a member of the persisted list. -/
lemma contains_addFavorite (favs : List Int) (id : Int) :
    ((addFavorite true favs id).1).contains id = true := by
  unfold addFavorite
  split
  · rename_i h
    simp_all
  · simp

/-! ## Claim theorems -/

/-- C1: for every `HomeState` reachable by any sequence of UI events
(gestures, category changes, load completions, toggles, player signals),
at most one rendered item has an actively playing trailer — the page
renders a single `MovieCard` for `movies[currentIndex]` and only that card
can hold an autoplaying embed, so the at-most-one-playing invariant holds
at every observed instant. -/
theorem singleActivePlayback (s0 s : HomeState) (h : Reachable s0 s)
    (videoError hasError : Bool) :
    playingCount s videoError hasError ≤ 1 :=
  playingCount_le_one s videoError hasError

/-- Witness for C1: the invariant evaluated at the concrete three-item
feed, reachable from itself by the empty event sequence. -/
theorem singleActivePlayback_witness :
    Reachable feedABC feedABC ∧ playingCount feedABC false false ≤ 1 :=
  ⟨Reachable.refl,
    singleActivePlayback feedABC feedABC Reachable.refl false false⟩

/-- C2 (code bug): `loadMovies` annotates every fetched movie with
`trailer: videos[0] || null` and keeps movies whose video list is empty —
an item with no valid trailer reference does enter `items`, contradicting
the filtering invariant.  Concretely, a load completing with movie A
(one trailer) and movie B (no videos at all) yields a feed containing
item B with `trailer = none`. -/
theorem trailerlessItemEntersFeed :
    (handleEvent feedAB (Event.loadDone [fetchedA, fetchedB])).movies =
      [⟨movieA, some vidTrailerA⟩, ⟨movieB, none⟩] ∧
    (⟨movieB, none⟩ : ExtendedMovie) ∈
      (handleEvent feedAB (Event.loadDone [fetchedA, fetchedB])).movies ∧
    (⟨movieB, none⟩ : ExtendedMovie).trailer = none := by
  decide

/-- C3 (code bug): when the user advances past the end of the feed
(`[itemA, itemB]` at index 1, reject gesture), `goToNextMovie` re-runs
`loadMovies()`, and its completion replaces `items` wholesale and resets
`currentIndex` to 0: the already-visible items A and B are dropped rather
than kept, nothing is appended or deduplicated, and the user's position is
not preserved. -/
theorem replenishReplacesAndResets :
    handleEvent feedAtEnd (Event.dragEnd (-100) 0) = feedLoadingAtEnd ∧
    (handleEvent feedLoadingAtEnd (Event.loadDone [fetchedC])).movies
      = [itemC] ∧
    (handleEvent feedLoadingAtEnd (Event.loadDone [fetchedC])).currentIndex
      = 0 ∧
    itemA ∉
      (handleEvent feedLoadingAtEnd (Event.loadDone [fetchedC])).movies ∧
    itemB ∉
      (handleEvent feedLoadingAtEnd (Event.loadDone [fetchedC])).movies := by
  have h1 : |(-100 : ℚ)| > 80 := by
    rw [abs_of_nonpos] <;> norm_num
  have hclass : handleDragEnd 80 (1 / 2) (-100) 0 = SwipeDir.left := by
    unfold handleDragEnd
    rw [if_pos (Or.inl h1), if_neg (by norm_num)]
  refine ⟨?_, by decide, by decide, by decide, by decide⟩
  show (match handleDragEnd 80 (1 / 2) (-100) 0 with
    | SwipeDir.right => handleSwipeRight feedAtEnd
    | SwipeDir.left => handleSwipeLeft feedAtEnd
    | SwipeDir.none => feedAtEnd) = feedLoadingAtEnd
  rw [hclass]
  decide

/-- C4 (code bug): the page defines `handleVideoEnd = goToNextMovie` (the
intended auto-advance, which would move the active index from 0 to 1),
but `TrailerPlayer` declares no `onVideoEnd` prop and registers no `ended`
listener, so the player's `ended` signal is dropped and the feed state is
unchanged — auto-advance never fires. -/
theorem endedSignalDropped :
    handleEvent feedAB Event.playerEnded = feedAB ∧
    (handleVideoEnd feedAB).currentIndex = 1 := by
  decide

/-- C5 counterexample: with candidates `[official Featurette, non-official
Trailer]`, the code selects the official Featurette as `videos[0]`, while
the spec's preference order (official trailer, else any trailer, else
teaser, else first) selects the non-official Trailer. -/
theorem trailerSelectionCounterexample :
    (getMovieVideos [vidFeaturette, vidFanTrailer]).head? =
      some vidFeaturette ∧
    specBestTrailer [vidFeaturette, vidFanTrailer] = some vidFanTrailer ∧
    vidFeaturette ≠ vidFanTrailer := by
  decide

/-- C5 amended: the sorted candidate list is the YouTube-only candidates
stably ordered by official-first (any kind), then kind "Trailer" before
other kinds (no teaser preference); hence the selected trailer
(`videos[0]`) is the first official trailer, else the first official
candidate of any kind, else the first non-official trailer, else the first
YouTube candidate — and every candidate not hosted on YouTube is
rejected. -/
theorem trailerSelectionCharacterized :
    ∀ results : List MovieVideo,
      getMovieVideos results =
        rankClasses (results.filter (fun v => v.site == "YouTube")) ∧
      (getMovieVideos results).head? = codeBestTrailer results ∧
      (getMovieVideos results).all (fun v => v.site == "YouTube") = true := by
  intro results
  refine ⟨getMovieVideos_eq_rankClasses results,
    head_getMovieVideos results, ?_⟩
  rw [List.all_eq_true]
  intro v hv
  rw [getMovieVideos_eq_rankClasses] at hv
  exact (List.mem_filter.1 (mem_rankClasses hv)).2

/-- C6: a drag release resolves to a directional action iff
`|offset| > distanceThreshold` or `|velocity| > velocityThreshold`
(direction by the sign of the offset), and to none otherwise; in
particular `classify(50, 0.1, 100, 0.5) = none`,
`classify(120, 0, 100, 0.5) = right` (positive offset), and a
below-threshold release leaves the feed state unchanged. -/
theorem gestureClassification :
    ∀ (distanceThreshold velocityThreshold offsetX velocityX : ℚ),
      (handleDragEnd distanceThreshold velocityThreshold offsetX velocityX
          = SwipeDir.none ↔
        ¬(|offsetX| > distanceThreshold ∨
          |velocityX| > velocityThreshold)) ∧
      (handleDragEnd distanceThreshold velocityThreshold offsetX velocityX
          = SwipeDir.right ↔
        ((|offsetX| > distanceThreshold ∨
          |velocityX| > velocityThreshold) ∧ offsetX > 0)) ∧
      (handleDragEnd distanceThreshold velocityThreshold offsetX velocityX
          = SwipeDir.left ↔
        ((|offsetX| > distanceThreshold ∨
          |velocityX| > velocityThreshold) ∧ ¬offsetX > 0)) ∧
      handleDragEnd 100 (1 / 2) 50 (1 / 10) = SwipeDir.none ∧
      handleDragEnd 100 (1 / 2) 120 0 = SwipeDir.right ∧
      (∀ s : HomeState, handleEvent s (Event.dragEnd 50 (1 / 10)) = s) := by
  intro dt vt ox vx
  have hgen1 : (handleDragEnd dt vt ox vx = SwipeDir.none ↔
      ¬(|ox| > dt ∨ |vx| > vt)) := by
    unfold handleDragEnd
    split_ifs with h1 h2 <;> simp [*]
  have hgen2 : (handleDragEnd dt vt ox vx = SwipeDir.right ↔
      ((|ox| > dt ∨ |vx| > vt) ∧ ox > 0)) := by
    unfold handleDragEnd
    split_ifs with h1 h2 <;> simp [*]
  have hgen3 : (handleDragEnd dt vt ox vx = SwipeDir.left ↔
      ((|ox| > dt ∨ |vx| > vt) ∧ ¬ox > 0)) := by
    unfold handleDragEnd
    split_ifs with h1 h2 <;> simp [*]
  have hnone : handleDragEnd 100 (1 / 2) 50 (1 / 10) = SwipeDir.none := by
    unfold handleDragEnd
    rw [if_neg]
    push_neg
    constructor <;> rw [abs_of_nonneg] <;> norm_num
  have hright : handleDragEnd 100 (1 / 2) 120 0 = SwipeDir.right := by
    unfold handleDragEnd
    rw [if_pos (Or.inl (by rw [abs_of_nonneg] <;> norm_num)),
      if_pos (by norm_num)]
  have hnone80 : handleDragEnd 80 (1 / 2) 50 (1 / 10) = SwipeDir.none := by
    unfold handleDragEnd
    rw [if_neg]
    push_neg
    constructor <;> rw [abs_of_nonneg] <;> norm_num
  refine ⟨hgen1, hgen2, hgen3, hnone, hright, ?_⟩
  intro s
  show (match handleDragEnd 80 (1 / 2) 50 (1 / 10) with
    | SwipeDir.right => handleSwipeRight s
    | SwipeDir.left => handleSwipeLeft s
    | SwipeDir.none => s) = s
  rw [hnone80]

/-- C7: from any feed position that is not the last one, a reject gesture
(negative offset past the threshold) advances `currentIndex` by exactly
one without touching `movies` or `favorites`, and an accept gesture
(positive offset past the threshold) additionally adds the current item's
id to the favorites before advancing by one; the new index stays inside
the valid range. -/
theorem swipeAdvancesFeed :
    ∀ (s : HomeState) (m : ExtendedMovie) (offL offR velL velR : ℚ),
      s.movies.get? s.currentIndex = some m →
      s.currentIndex + 1 < s.movies.length →
      offL < 0 → 80 < |offL| → 0 < offR → 80 < offR →
      handleEvent s (Event.dragEnd offL velL) = handleSwipeLeft s ∧
      (handleSwipeLeft s).movies = s.movies ∧
      (handleSwipeLeft s).currentIndex = s.currentIndex + 1 ∧
      (handleSwipeLeft s).favorites = s.favorites ∧
      handleEvent s (Event.dragEnd offR velR) = handleSwipeRight s ∧
      (handleSwipeRight s).movies = s.movies ∧
      (handleSwipeRight s).currentIndex = s.currentIndex + 1 ∧
      isFavorite (handleSwipeRight s).favorites m.id = true ∧
      (handleSwipeRight s).currentIndex < s.movies.length := by
  intro s m offL offR velL velR hget hlen hneg habs hposR hthrR
  have hlt : s.currentIndex < s.movies.length - 1 := by omega
  have hclassL : handleDragEnd 80 (1 / 2) offL velL = SwipeDir.left := by
    unfold handleDragEnd
    rw [if_pos (Or.inl habs), if_neg (by linarith)]
  have hclassR : handleDragEnd 80 (1 / 2) offR velR = SwipeDir.right := by
    have habsR : |offR| > 80 := by
      rw [abs_of_nonneg (le_of_lt hposR)]
      exact hthrR
    unfold handleDragEnd
    rw [if_pos (Or.inl habsR), if_pos hposR]
  have hL : handleEvent s (Event.dragEnd offL velL) = handleSwipeLeft s := by
    show (match handleDragEnd 80 (1 / 2) offL velL with
      | SwipeDir.right => handleSwipeRight s
      | SwipeDir.left => handleSwipeLeft s
      | SwipeDir.none => s) = handleSwipeLeft s
    rw [hclassL]
  have hR : handleEvent s (Event.dragEnd offR velR) = handleSwipeRight s := by
    show (match handleDragEnd 80 (1 / 2) offR velR with
      | SwipeDir.right => handleSwipeRight s
      | SwipeDir.left => handleSwipeLeft s
      | SwipeDir.none => s) = handleSwipeRight s
    rw [hclassR]
  have hnext : ∀ t : HomeState, t.currentIndex = s.currentIndex →
      t.movies = s.movies →
      goToNextMovie t = { t with currentIndex := t.currentIndex + 1 } := by
    intro t hti htm
    unfold goToNextMovie
    rw [if_pos (by rw [hti, htm]; exact hlt)]
  have hsl : handleSwipeLeft s =
      { s with currentIndex := s.currentIndex + 1 } := by
    unfold handleSwipeLeft
    exact hnext s rfl rfl
  have hsr : handleSwipeRight s =
      { s with currentIndex := s.currentIndex + 1,
               favorites := (addFavorite true s.favorites m.id).1 } := by
    unfold handleSwipeRight
    rw [hget]
    dsimp only
    exact hnext _ rfl rfl
  refine ⟨hL, ?_, ?_, ?_, hR, ?_, ?_, ?_, ?_⟩
  · rw [hsl]
  · rw [hsl]
  · rw [hsl]
  · rw [hsr]
  · rw [hsr]
  · rw [hsr]
    exact contains_addFavorite s.favorites m.id
  · rw [hsr]
    dsimp only
    omega

/-- Witness for C7: the three-item feed at index 0, with a -100 reject and
a +100 accept gesture. -/
theorem swipeAdvancesFeed_witness :
    feedABC.movies.get? feedABC.currentIndex = some itemA ∧
    feedABC.currentIndex + 1 < feedABC.movies.length ∧
    (handleSwipeLeft feedABC).currentIndex = 1 ∧
    isFavorite (handleSwipeRight feedABC).favorites itemA.id = true := by
  have h := swipeAdvancesFeed feedABC itemA (-100) 100 0 0
    (by decide) (by decide)
    (by norm_num)
    (by rw [abs_of_nonpos] <;> norm_num)
    (by norm_num) (by norm_num)
  exact ⟨by decide, by decide, by rw [h.2.2.1]; rfl,
    h.2.2.2.2.2.2.2.1⟩

/-- C8: `addFavorite` is idempotent — when the id is already a member it
returns success and leaves the persisted set unchanged (no duplicate, same
count, for any write outcome); in particular `add(5)` twice starting from
the empty store leaves the persisted list at `[5]`, count 1. -/
theorem addFavoriteIdempotent :
    ∀ (writeOk : Bool) (favs : List Int) (id : Int),
      id ∈ favs →
      addFavorite writeOk favs id = (favs, true) ∧
      getFavoritesCount (addFavorite writeOk favs id).1 =
        getFavoritesCount favs ∧
      addFavorite true (addFavorite true [] 5).1 5 = ([5], true) ∧
      getFavoritesCount (addFavorite true (addFavorite true [] 5).1 5).1
        = 1 := by
  intro writeOk favs id hmem
  have hc : favs.contains id = true := by
    simpa using hmem
  refine ⟨?_, ?_, ?_, ?_⟩
  · unfold addFavorite
    rw [if_pos hc]
  · unfold addFavorite
    rw [if_pos hc]
  · decide
  · decide

/-- Witness for C8: adding 5 to the store that already holds 5. -/
theorem addFavoriteIdempotent_witness :
    addFavorite true [5] 5 = ([5], true) :=
  (addFavoriteIdempotent true [5] 5 (by simp)).1

/-- C9 counterexample: with a failing persistent write, `toggleFavorite(5)`
on the empty store returns `true` — reporting a successful toggle into
membership — while the persisted set still does not contain 5.  The write
failure of `addFavorite` is not surfaced through `toggle`. -/
theorem toggleFavoriteCounterexample :
    toggleFavorite false [] 5 = ([], true) ∧ isFavorite [] 5 = false := by
  decide

/-- C9 amended: `toggleFavorite` returns the negation of the prior
membership (the membership that results when the write succeeds, as it
does match the persisted set in the successful-write case), but it ignores
the success flag of `addFavorite`/`removeFavorite`, so a failed write is
still reported as a successful toggle. -/
theorem toggleFavoriteAmended :
    ∀ (writeOk : Bool) (favs : List Int) (id : Int),
      (toggleFavorite writeOk favs id).2 = !(isFavorite favs id) ∧
      (toggleFavorite true favs id).2 =
        isFavorite (toggleFavorite true favs id).1 id := by
  intro writeOk favs id
  constructor
  · unfold toggleFavorite
    split <;> simp_all
  · cases hm : isFavorite favs id with
    | true =>
      simp [isFavorite] at hm
      simp [toggleFavorite, removeFavorite, isFavorite, hm]
    | false =>
      simp [isFavorite] at hm
      have hca := contains_addFavorite favs id
      simp at hca
      simp [toggleFavorite, isFavorite, hm, hca]

/-- C10: `getFavorites` is total and returns the empty list whenever the
stored value is absent, empty, unparsable, or parses to a non-array; every
favorites operation then sees the empty set (count 0, no members) instead
of failing. -/
theorem getFavoritesRobust :
    ∀ (hasWindow : Bool) (parseJson : String → Option Json)
      (stored : Option String),
      (stored = none ∨ ∃ s, stored = some s ∧
        (s = "" ∨ parseJson s = none ∨
          ∃ v, parseJson s = some v ∧ v.isArr = false)) →
      getFavorites hasWindow parseJson stored = [] ∧
      getFavoritesCount (getFavorites hasWindow parseJson stored) = 0 ∧
      ∀ id, isFavorite (getFavorites hasWindow parseJson stored) id
        = false := by
  intro hasWindow parseJson stored hcase
  have hempty : getFavorites hasWindow parseJson stored = [] := by
    cases hasWindow with
    | false => rfl
    | true =>
      rcases hcase with h | ⟨s, hs, h⟩
      · rw [h]; rfl
      · subst hs
        rcases h with h | h | ⟨v, hv, harr⟩
        · subst h; rfl
        · by_cases hse : s = ""
          · simp [getFavorites, hse]
          · simp [getFavorites, hse, h]
        · by_cases hse : s = ""
          · simp [getFavorites, hse]
          · simp [getFavorites, hse, hv]
            cases v <;> simp_all [Json.isArr]
  refine ⟨hempty, ?_, ?_⟩
  · rw [hempty]; rfl
  · intro id; rw [hempty]; rfl

/-- Witness for C10: unparsable stored content yields the empty list. -/
theorem getFavoritesRobust_witness :
    getFavorites true (fun _ => Option.none) (some "garbage") = [] :=
  (getFavoritesRobust true (fun _ => Option.none) (some "garbage")
    (Or.inr ⟨"garbage", rfl, Or.inr (Or.inl rfl)⟩)).1

end MovieRec
